import Mathlib

/-!
Shallow embedding of the retrieval-augmented chatbot backend
(`api/services/cohere_service.py`, `api/services/vector_service.py`,
`api/services/rag_service.py`, and the startup call in `api/main.py`).

Modelling conventions:
* `async` Python functions become pure Lean functions; a call that may raise
  is modelled in `Except String`, the error holding the exception text.
* Remote collaborators (the Cohere client, the Qdrant backend) are abstract
  function records; the repository's own wrapper logic around them is
  transcribed faithfully.
* Floats are modelled as `Rat`; uuid identifiers as distinct naturals drawn
  from a freshness supply.
* `RAGService.answer_question` additionally returns the list of collaborator
  calls it made, so that claims about which arguments were passed to a
  collaborator (and about calls never made) are statable.
-/

/-- A stored payload dict: the keys the repository reads from a Qdrant
payload (`content`, `chapter_slug`, optional `module_name`, optional
`chunk_index`). -/
structure Payload where
  content : String
  chapter_slug : String
  module_name : Option String
  chunk_index : Nat
deriving Repr, DecidableEq

/-- One formatted search result as returned by `VectorService.search`:
`{"id": str, "score": float, "payload": dict}`. -/
structure SearchResult where
  id : String
  score : Rat
  payload : Payload
deriving Repr, DecidableEq

/-- A source descriptor built by `RAGService.answer_question`
(`chapter_slug`, `module_name`, `score`). -/
structure SourceInfo where
  chapter_slug : String
  module_name : String
  score : Rat
deriving Repr, DecidableEq

/-- The dict returned by `RAGService.answer_question`. `error` is `some`
exactly when the Python dict carries the extra `"error"` key. -/
structure RAGResult where
  answer : String
  sources : List SourceInfo
  context_chunks : List String
  error : Option String
deriving Repr, DecidableEq

/-- Python substring test `sub in hay`, on the underlying character lists. -/
def listContainsSub (sub : List Char) : List Char → Bool
  | [] => sub.isEmpty
  | c :: rest => sub.isPrefixOf (c :: rest) || listContainsSub sub rest

/-- Python `sub in hay` for strings. -/
def containsSub (hay sub : String) : Bool :=
  listContainsSub sub.data hay.data

/-- Python `s.lower()`, character by character (the fixed phrases it is
compared against are ASCII). -/
def strLower (s : String) : String := String.mk (s.data.map Char.toLower)

namespace CohereService

/-- The remote Cohere client, abstract: `embedApi` models
`client.embed(texts=[text], ...)` returning its first embedding, `chatApi`
models `client.chat(message=..., preamble=...)` returning `response.text`;
either may raise. -/
structure ChatClient where
  embedApi : String → Except String (List Rat)
  chatApi : (message : String) → (preamble : String) → Except String String

/-- The mock embedding `[0.1] * 1024` returned when no client is configured
or the remote call fails. -/
def mockEmbedding : List Rat := List.replicate 1024 (1 / 10)

/-- `CohereService.generate_embedding`: with no client, the mock embedding;
with a client, the first returned embedding, falling back to the mock
embedding if the remote call raises. Never raises. -/
def generate_embedding (client : Option ChatClient) (text : String) : List Rat :=
  match client with
  | none => mockEmbedding
  | some cl =>
    match cl.embedApi text with
    | .ok v => v
    | .error _ => mockEmbedding

/-- The fixed preamble prepended on every real chat call. -/
def chatPreamble : String :=
  "You are an AI assistant specialized in robotics and intelligent systems. Answer questions based on the provided context."

/-- The mock chat response used when no client is configured. -/
def mockChatResponse (query : String) : String :=
  "I\x27m your AI assistant. Regarding \x27" ++ query ++ "\x27, I can tell you that this is a mock response for testing purposes."

/-- The fallback response when the remote chat call raises. -/
def chatFallback (query : String) : String :=
  "I\x27m sorry, I encountered an issue generating a response. The query was about: " ++ query.take 100 ++ "..."

/-- The message assembled for the remote chat call: the query alone when no
context is given, otherwise the query followed by at most the first 3
context chunks (`context_chunks[:3]`) joined by newlines. -/
def buildChatMessage (query : String) (context_chunks : List String) : String :=
  if context_chunks.isEmpty then query
  else query ++ "\n" ++ ("\n\nContext:\n" ++ String.intercalate "\n" (context_chunks.take 3))

/-- `CohereService.generate_chat_response`. The `conversation_history` and
`selected_text` parameters are accepted but unused, as in the source.
Never raises. -/
def generate_chat_response (client : Option ChatClient) (query : String)
    (context_chunks : List String) (conversation_history : List (String × String))
    (selected_text : Option String) : String :=
  match client with
  | none => mockChatResponse query
  | some cl =>
    match cl.chatApi (buildChatMessage query context_chunks) chatPreamble with
    | .ok t => t
    | .error _ => chatFallback query

end CohereService

namespace RAGService

/-- The three collaborator calls `answer_question` can make, abstract so that
arbitrary behaviours (including always throwing) are covered. -/
structure Collabs where
  embed : String → Except String (List Rat)
  search : (query_vector : List Rat) → (limit : Nat) → (chapter_slug : Option String) →
    Except String (List SearchResult)
  generate : (query : String) → (context_chunks : List String) →
    (conversation_history : List (String × String)) → (selected_text : Option String) →
    Except String String

/-- A record of one collaborator call made during `answer_question`. -/
inductive CallRec where
  | embedCall (text : String)
  | searchCall (query_vector : List Rat) (limit : Nat) (chapter_slug : Option String)
  | generateCall (query : String) (context_chunks : List String)
      (conversation_history : List (String × String)) (selected_text : Option String)
deriving Repr, DecidableEq

/-- The fixed technical-difficulties answer returned when the embedding call
raises. -/
def techDifficultiesAnswer : String :=
  "Hello! I\x27m your AI assistant. I\x27m currently experiencing some technical difficulties, but I\x27m here to help. Could you try rephrasing your question?"

/-- The fixed answer returned when no relevant context is found. -/
def noContextAnswer : String :=
  "I\x27m having trouble finding specific information about your question in the textbook. However, I\x27m an AI assistant designed to help you learn about robotics. Could you try asking about inverse kinematics, PID controllers, or humanoid locomotion?"

/-- The fixed answer of the top-level catch-all branch. -/
def pipelineErrorAnswer : String :=
  "I encountered an error while processing your question. Please try again or rephrase your question."

/-- Result of the terminal embedding-failure branch. -/
def embedFailResult : RAGResult :=
  { answer := techDifficultiesAnswer, sources := [], context_chunks := [], error := none }

/-- Result of the no-context-found branch. -/
def noContextResult : RAGResult :=
  { answer := noContextAnswer, sources := [], context_chunks := [], error := none }

/-- Result of the top-level catch-all branch: the fixed apologetic text plus
the exception text under the extra `"error"` key. -/
def catchAllResult (e : String) : RAGResult :=
  { answer := pipelineErrorAnswer, sources := [], context_chunks := [], error := some e }

/-- The fixed list of greeting/meta phrases used to classify a question as
general. -/
def generalQuestions : List String :=
  ["hello", "hi", "hey", "how are you", "what is your name",
   "who are you", "what do you do", "introduce yourself",
   "help", "start", "greetings", "good morning", "good evening"]

/-- `is_general_question = any(gq in question.lower() for gq in general_questions)`. -/
def isGeneralQuestion (question : String) : Bool :=
  generalQuestions.any (fun gq => containsSub (strLower question) gq)

/-- Source descriptor built for one search result;
`payload.get('module_name', 'unknown')`. -/
def mkSourceInfo (r : SearchResult) : SourceInfo :=
  { chapter_slug := r.payload.chapter_slug,
    module_name := r.payload.module_name.getD "unknown",
    score := r.score }

/-- The source-accumulation loop: append each result's descriptor unless an
equal one is already present (first-seen order preserved). -/
def buildSources : List SearchResult → List SourceInfo → List SourceInfo
  | [], acc => acc
  | r :: rest, acc =>
    let info := mkSourceInfo r
    if info ∈ acc then buildSources rest acc
    else buildSources rest (acc ++ [info])

/-- The inner try/except around the vector search: a raised exception is
absorbed as zero results. -/
def searchOutcome (x : Except String (List SearchResult)) : List SearchResult :=
  match x with
  | .ok rs => rs
  | .error _ => []

/-- `RAGService.answer_question`, with the outer try/except as the `Except`
layer (proved below never to fire as an error) and the list of collaborator
calls made. Control flow transcribed from the source: embed with terminal
fallback, search with absorb-to-empty, empty-result early return, context
and de-duplicated source assembly, classification, then generation with the
context emptied for general questions; a raise from the generation
collaborator is caught by the top-level handler. -/
def answer_question (c : Collabs) (question : String) (selected_text : Option String)
    (chapter_slug : Option String) (conversation_history : List (String × String))
    (top_k : Nat) : Except String (RAGResult × List CallRec) :=
  match c.embed question with
  | .error _ => .ok (embedFailResult, [.embedCall question])
  | .ok question_embedding =>
    let pre : List CallRec :=
      [.embedCall question, .searchCall question_embedding top_k chapter_slug]
    let search_results := searchOutcome (c.search question_embedding top_k chapter_slug)
    if search_results.isEmpty then .ok (noContextResult, pre)
    else
      let context_chunks := search_results.map (fun r => r.payload.content)
      let sources := buildSources search_results []
      let is_general := isGeneralQuestion question
      let ctxArg := if is_general then [] else context_chunks
      let calls := pre ++ [.generateCall question ctxArg conversation_history selected_text]
      match c.generate question ctxArg conversation_history selected_text with
      | .error e => .ok (catchAllResult e, calls)
      | .ok answer =>
        .ok ({ answer := answer, sources := sources, context_chunks := context_chunks,
               error := none }, calls)

end RAGService

namespace VectorService

/-- A stored Qdrant point: uuid identifier (modelled as a natural from a
freshness supply), vector, and chunk payload. -/
structure QPoint where
  id : Nat
  vector : List Rat
  payload : Payload
deriving Repr, DecidableEq

/-- The configured collection name (`QDRANT_COLLECTION_NAME` default). -/
def collection_name : String := "physical_ai_textbook"

/-- `VectorService.create_collection` acting on the backend's collection
registry (name, vector dimension): if the configured collection already
exists and `force_recreate` is false, return with no change; if it exists
and `force_recreate` is true, delete and recreate it empty with the given
size; otherwise create it with the given size and cosine distance. -/
def create_collection (cols : List (String × Nat)) (vector_size : Nat)
    (force_recreate : Bool) : Except String (List (String × Nat)) :=
  let already := cols.any (fun c => c.1 == collection_name)
  if already && !force_recreate then .ok cols
  else
    let cols' := if already then cols.filter (fun c => c.1 != collection_name) else cols
    .ok (cols' ++ [(collection_name, vector_size)])

/-- The `ValueError` message raised on a length mismatch. -/
def mismatchMsg (nDocs nEmb : Nat) : String :=
  "Documents (" ++ toString nDocs ++ ") and embeddings (" ++ toString nEmb ++
    ") must have the same length"

/-- `VectorService.upsert_documents` acting on the collection's stored
points, paired with the `ValueError`/success outcome. The length check
precedes every backend call, so on mismatch the state is returned untouched;
each document gets a fresh identifier from the supply. -/
def upsert_documents (st : List QPoint) (freshIds : List Nat) (documents : List Payload)
    (embeddings : List (List Rat)) : Except String Unit × List QPoint :=
  if documents.length ≠ embeddings.length then
    (.error (mismatchMsg documents.length embeddings.length), st)
  else if documents.isEmpty then (.ok (), st)
  else
    let points := ((freshIds.zip documents).zip embeddings).map
      (fun x => QPoint.mk x.1.1 x.2 x.1.2)
    (.ok (), st ++ points)

/-- The conjunctive payload filter built by `VectorService.search`:
a `chapter_slug` condition and/or a `module_name` condition. -/
def matchesFilter (chapter_slug : Option String) (module_name : Option String)
    (p : Payload) : Bool :=
  (match chapter_slug with
   | none => true
   | some c => p.chapter_slug == c) &&
  (match module_name with
   | none => true
   | some m => p.module_name == some m)

/-- `VectorService.search`: the backend returns the matching points ranked
by cosine similarity, capped at `limit`; the similarity ranking lives in the
backend, outside this repository, and is modelled as the stored order with
an abstract scoring function `scoreOf` — no claim proved here depends on
the order or the score values, only on which points match and how many are
returned. Results are formatted as `{"id", "score", "payload"}` dicts. -/
def search (scoreOf : List Rat → List Rat → Rat) (st : List QPoint)
    (query_vector : List Rat) (limit : Nat) (chapter_slug : Option String)
    (module_name : Option String) : List SearchResult :=
  ((st.filter (fun p => matchesFilter chapter_slug module_name p.payload)).take limit).map
    (fun p => { id := toString p.id, score := scoreOf query_vector p.vector,
                payload := p.payload })

/-- The scan phase of `delete_by_chapter`: one `scroll` call with the
chapter filter and `limit=10000`, no pagination. -/
def scrollByChapter (st : List QPoint) (chapter_slug : String) : List QPoint :=
  (st.filter (fun p => p.payload.chapter_slug == chapter_slug)).take 10000

/-- `VectorService.delete_by_chapter`: scan for points whose payload chapter
matches (a single scroll page of at most 10000), then, when any were found,
delete by those identifiers. -/
def delete_by_chapter (st : List QPoint) (chapter_slug : String) : List QPoint :=
  let found := scrollByChapter st chapter_slug
  if found.isEmpty then st
  else st.filter (fun p => !((found.map (fun q => q.id)).contains p.id))

end VectorService

/-- The startup call in `api/main.py`:
`vector_service.create_collection(vector_size=1024, force_recreate=False)`. -/
def startupVectorSize : Nat := 1024

/-- The collection-creation call made at application startup. -/
def startupCreateCollection (cols : List (String × Nat)) :
    Except String (List (String × Nat)) :=
  VectorService.create_collection cols startupVectorSize false

/-!
Concrete fixtures used by the witness theorems below.
-/

/-- A kinematics chunk payload. -/
def pKin : Payload :=
  { content := "Inverse kinematics content", chapter_slug := "kinematics",
    module_name := some "module-1", chunk_index := 0 }

/-- A control-theory chunk payload. -/
def pCtrl : Payload :=
  { content := "PID control content", chapter_slug := "control",
    module_name := some "module-2", chunk_index := 1 }

/-- A search result carrying the kinematics payload. -/
def rKin : SearchResult := { id := "1", score := 9, payload := pKin }

/-- A search result carrying the control payload. -/
def rCtrl : SearchResult := { id := "2", score := 8, payload := pCtrl }

/-- A second kinematics result whose source triple (slug, module, score) is
identical to `rKin` while its content differs. -/
def rKinDup : SearchResult :=
  { id := "3", score := 9,
    payload := { content := "Another kinematics chunk", chapter_slug := "kinematics",
                 module_name := some "module-1", chunk_index := 2 } }

/-- A kinematics result differing from `rKin` only in score. -/
def rKinOther : SearchResult := { id := "4", score := 4, payload := pKin }

/-- Collaborators that always throw. -/
def throwingCollabs : RAGService.Collabs :=
  { embed := fun _ => .error "embedding provider down",
    search := fun _ _ _ => .error "search down",
    generate := fun _ _ _ _ => .error "generation down" }

/-- Collaborators whose embedding succeeds but whose vector search throws. -/
def searchFailCollabs : RAGService.Collabs :=
  { embed := fun _ => .ok [1 / 10],
    search := fun _ _ _ => .error "qdrant unreachable",
    generate := fun _ _ _ _ => .ok "never used" }

/-- Fully successful collaborators returning two ranked results. -/
def okCollabs : RAGService.Collabs :=
  { embed := fun _ => .ok [1 / 10],
    search := fun _ _ _ => .ok [rKin, rCtrl],
    generate := fun _ _ _ _ => .ok "generated answer" }

/-- Successful collaborators returning a chosen pair of results. -/
def twoResultCollabs (r1 r2 : SearchResult) : RAGService.Collabs :=
  { embed := fun _ => .ok [1 / 10],
    search := fun _ _ _ => .ok [r1, r2],
    generate := fun _ _ _ _ => .ok "grounded answer" }

/-- Collaborators whose generation call throws after a successful search. -/
def genFailCollabs : RAGService.Collabs :=
  { embed := fun _ => .ok [1 / 10],
    search := fun _ _ _ => .ok [rKin, rCtrl],
    generate := fun _ _ _ _ => .error "cohere chat down" }

/-- A remote chat client that echoes the assembled message back. -/
def echoClient : CohereService.ChatClient :=
  { embedApi := fun _ => .ok [1 / 10],
    chatApi := fun m _ => .ok m }

/-- A remote client whose calls all fail. -/
def failingClient : CohereService.ChatClient :=
  { embedApi := fun _ => .error "cohere down",
    chatApi := fun _ _ => .error "cohere down" }

/-- A kinematics payload for stored points. -/
def kinPayload : Payload :=
  { content := "chunk", chapter_slug := "kinematics", module_name := none, chunk_index := 0 }

/-- The stored point with identifier `n` carrying `kinPayload`. -/
def mkPt (n : Nat) : VectorService.QPoint :=
  { id := n, vector := [], payload := kinPayload }

/-- An index state holding 10001 kinematics points, one more than a single
scroll page. -/
def bigState : List VectorService.QPoint := (List.range 10001).map mkPt

/-- A small index state: two kinematics points and one control point. -/
def smallState : List VectorService.QPoint :=
  [mkPt 1, mkPt 2, { id := 3, vector := [], payload := pCtrl }]

/-!
Claim theorems, their witnesses, and counterexamples.
-/

/-- Claim C1: for every string question and every behaviour of the embedding,
search, and generation collaborators (including collaborators that always
throw), `RAGService.answer_question` returns normally — the outer exception
layer never fires — and its result is structurally a `RAGResult`: an answer
string, a list of sources, a list of context chunks. -/
theorem answer_question_never_raises (c : RAGService.Collabs) (q : String)
    (sel : Option String) (ch : Option String) (hist : List (String × String)) (k : Nat) :
    ∃ rc, RAGService.answer_question c q sel ch hist k = .ok rc := by
  unfold RAGService.answer_question
  cases c.embed q
  · exact ⟨_, rfl⟩
  · dsimp only
    split
    · exact ⟨_, rfl⟩
    · split <;> exact ⟨_, rfl⟩

/-- Claim C2: whenever the embedding call raises, `answer_question` returns
the fixed technical-difficulties answer with empty sources and context, and
the call trace shows no search and no generation call — only the embedding
call — regardless of the question's classification. -/
theorem embed_failure_terminal (c : RAGService.Collabs) (q : String)
    (sel ch : Option String) (hist : List (String × String)) (k : Nat) (e : String)
    (he : c.embed q = .error e) :
    RAGService.answer_question c q sel ch hist k =
      .ok (RAGService.embedFailResult, [RAGService.CallRec.embedCall q]) := by
  unfold RAGService.answer_question
  rw [he]

/-- Witness for C2: collaborators that always throw, on the question
"hello". -/
theorem embed_failure_terminal_witness :
    throwingCollabs.embed "hello" = .error "embedding provider down" ∧
    RAGService.answer_question throwingCollabs "hello" none none [] 5 =
      .ok (RAGService.embedFailResult, [RAGService.CallRec.embedCall "hello"]) :=
  ⟨rfl, embed_failure_terminal throwingCollabs "hello" none none [] 5
    "embedding provider down" rfl⟩

/-- Claim C3: whenever the vector search yields zero results — an empty
result list or a raised search call absorbed as zero results — the answer is
the fixed "couldn't find information" text with empty sources and context,
the trace shows no generation call, and no classification hypothesis is
needed: the branch is taken even for greeting questions. -/
theorem no_context_fixed_answer (c : RAGService.Collabs) (q : String)
    (sel ch : Option String) (hist : List (String × String)) (k : Nat) (v : List Rat)
    (he : c.embed q = .ok v)
    (hs : RAGService.searchOutcome (c.search v k ch) = []) :
    RAGService.answer_question c q sel ch hist k =
      .ok (RAGService.noContextResult,
        [RAGService.CallRec.embedCall q, RAGService.CallRec.searchCall v k ch]) := by
  unfold RAGService.answer_question
  rw [he]
  dsimp only
  rw [hs]
  rfl

/-- Witness for C3: a greeting question ("hello", which classifies general)
with a throwing search still gets the "couldn't find information" answer. -/
theorem no_context_fixed_answer_witness :
    searchFailCollabs.embed "hello" = .ok [1 / 10] ∧
    RAGService.searchOutcome (searchFailCollabs.search [1 / 10] 5 none) = [] ∧
    RAGService.isGeneralQuestion "hello" = true ∧
    RAGService.answer_question searchFailCollabs "hello" none none [] 5 =
      .ok (RAGService.noContextResult,
        [RAGService.CallRec.embedCall "hello", RAGService.CallRec.searchCall [1 / 10] 5 none]) :=
  ⟨rfl, rfl, by decide,
    no_context_fixed_answer searchFailCollabs "hello" none none [] 5 [1 / 10] rfl rfl⟩

/-- Claim C4: for a question classified general and a non-empty retrieval
result, the generation collaborator is called with the empty context list,
regardless of what was retrieved. -/
theorem general_empty_context (c : RAGService.Collabs) (q : String)
    (sel ch : Option String) (hist : List (String × String)) (k : Nat) (v : List Rat)
    (res : List SearchResult)
    (he : c.embed q = .ok v) (hs : c.search v k ch = .ok res) (hne : res ≠ [])
    (hgen : RAGService.isGeneralQuestion q = true) :
    ∃ r, RAGService.answer_question c q sel ch hist k =
      .ok (r, [RAGService.CallRec.embedCall q, RAGService.CallRec.searchCall v k ch,
        RAGService.CallRec.generateCall q [] hist sel]) := by
  unfold RAGService.answer_question
  rw [he]
  simp only [hs, RAGService.searchOutcome]
  rw [if_neg (by simpa using hne)]
  simp only [hgen, if_true]
  cases c.generate q [] hist sel
  · exact ⟨_, rfl⟩
  · exact ⟨_, rfl⟩

/-- Witness for C4: the greeting "hello" with two retrieved results leads to
a generation call whose context list is empty. -/
theorem general_empty_context_witness :
    okCollabs.search [1 / 10] 5 none = .ok [rKin, rCtrl] ∧
    RAGService.isGeneralQuestion "hello" = true ∧
    ∃ r, RAGService.answer_question okCollabs "hello" none none [] 5 =
      .ok (r, [RAGService.CallRec.embedCall "hello",
        RAGService.CallRec.searchCall [1 / 10] 5 none,
        RAGService.CallRec.generateCall "hello" [] [] none]) :=
  ⟨rfl, by decide,
    general_empty_context okCollabs "hello" none none [] 5 [1 / 10] [rKin, rCtrl]
      rfl rfl (by decide) (by decide)⟩

/-- Helper: the chat message assembled by `generate_chat_response` depends
only on the first 3 context chunks. -/
theorem buildChatMessage_take3 (q : String) (ctx : List String) :
    CohereService.buildChatMessage q ctx = CohereService.buildChatMessage q (ctx.take 3) := by
  unfold CohereService.buildChatMessage
  cases ctx with
  | nil => rfl
  | cons a l => simp [List.take_take]

/-- Claim C5: for a technical question with at least one result, the
generation collaborator receives exactly the retrieved chunks' content texts
in search-rank order, and `generate_chat_response` builds the same
generation request from that list as from its first 3 chunks — chunks beyond
the third never influence the request. -/
theorem technical_context_rank_and_cap (c : RAGService.Collabs) (q : String)
    (sel ch : Option String) (hist : List (String × String)) (k : Nat) (v : List Rat)
    (res : List SearchResult) (cl : Option CohereService.ChatClient)
    (he : c.embed q = .ok v) (hs : c.search v k ch = .ok res) (hne : res ≠ [])
    (htech : RAGService.isGeneralQuestion q = false) :
    (∃ r, RAGService.answer_question c q sel ch hist k =
      .ok (r, [RAGService.CallRec.embedCall q, RAGService.CallRec.searchCall v k ch,
        RAGService.CallRec.generateCall q (res.map (fun x => x.payload.content)) hist sel])) ∧
    CohereService.generate_chat_response cl q (res.map (fun x => x.payload.content)) hist sel =
      CohereService.generate_chat_response cl q ((res.map (fun x => x.payload.content)).take 3)
        hist sel := by
  constructor
  · unfold RAGService.answer_question
    rw [he]
    simp only [hs, RAGService.searchOutcome]
    rw [if_neg (by simpa using hne)]
    rw [htech]
    rw [if_neg (show ¬(false = true) from by decide)]
    cases c.generate q (res.map (fun x => x.payload.content)) hist sel
    · exact ⟨_, rfl⟩
    · exact ⟨_, rfl⟩
  · cases cl with
    | none => rfl
    | some cl => unfold CohereService.generate_chat_response; rw [← buildChatMessage_take3]

/-- Witness for C5: a technical question with two retrieved chunks, and an
echoing remote client. -/
theorem technical_context_rank_and_cap_witness :
    RAGService.isGeneralQuestion "What is a PID controller?" = false ∧
    ((∃ r, RAGService.answer_question okCollabs "What is a PID controller?" none none [] 5 =
      .ok (r, [RAGService.CallRec.embedCall "What is a PID controller?",
        RAGService.CallRec.searchCall [1 / 10] 5 none,
        RAGService.CallRec.generateCall "What is a PID controller?"
          ([rKin, rCtrl].map (fun x => x.payload.content)) [] none])) ∧
    CohereService.generate_chat_response (some echoClient) "What is a PID controller?"
        ([rKin, rCtrl].map (fun x => x.payload.content)) [] none =
      CohereService.generate_chat_response (some echoClient) "What is a PID controller?"
        (([rKin, rCtrl].map (fun x => x.payload.content)).take 3) [] none) :=
  ⟨by decide,
    technical_context_rank_and_cap okCollabs "What is a PID controller?" none none [] 5
      [1 / 10] [rKin, rCtrl] (some echoClient) rfl rfl (by decide) (by decide)⟩

/-- Claim C6: the sources list is the de-duplication of the per-result
descriptors by exact structural equality of (chapter_slug, module_name,
score) with first-seen order: two results with identical triples contribute
exactly one entry, two results differing only in score contribute two. -/
theorem sources_dedup (c : RAGService.Collabs) (q : String)
    (sel ch : Option String) (hist : List (String × String)) (k : Nat) (v : List Rat)
    (r1 r2 : SearchResult) (ans : String)
    (he : c.embed q = .ok v) (hs : c.search v k ch = .ok [r1, r2])
    (hg : ∀ ctx, c.generate q ctx hist sel = .ok ans) :
    (∃ calls, RAGService.answer_question c q sel ch hist k =
      .ok ({ answer := ans, sources := RAGService.buildSources [r1, r2] [],
             context_chunks := [r1.payload.content, r2.payload.content],
             error := none }, calls)) ∧
    (RAGService.mkSourceInfo r1 = RAGService.mkSourceInfo r2 →
      RAGService.buildSources [r1, r2] [] = [RAGService.mkSourceInfo r1]) ∧
    (r1.payload.chapter_slug = r2.payload.chapter_slug →
      r1.payload.module_name = r2.payload.module_name →
      r1.score ≠ r2.score →
      RAGService.buildSources [r1, r2] [] =
        [RAGService.mkSourceInfo r1, RAGService.mkSourceInfo r2]) := by
  refine ⟨?_, ?_, ?_⟩
  · unfold RAGService.answer_question
    rw [he]
    simp only [hs, RAGService.searchOutcome]
    rw [if_neg (by simp)]
    cases hgq : RAGService.isGeneralQuestion q
    · rw [if_neg (by simp)]
      rw [hg]
      exact ⟨_, rfl⟩
    · rw [if_pos rfl]
      rw [hg]
      exact ⟨_, rfl⟩
  · intro h
    simp [RAGService.buildSources, h]
  · intro h1 h2 h3
    have hne : RAGService.mkSourceInfo r2 ≠ RAGService.mkSourceInfo r1 := by
      simp only [RAGService.mkSourceInfo, ne_eq, SourceInfo.mk.injEq]
      intro h
      exact h3 (h.2.2.symm)
    simp [RAGService.buildSources, hne]

/-- Witness for C6: `rKin`/`rKinDup` share one source triple and yield one
entry; `rKin`/`rKinOther` differ only in score and yield two entries. -/
theorem sources_dedup_witness :
    RAGService.mkSourceInfo rKin = RAGService.mkSourceInfo rKinDup ∧
    rKin.score ≠ rKinOther.score ∧
    RAGService.buildSources [rKin, rKinDup] [] = [RAGService.mkSourceInfo rKin] ∧
    RAGService.buildSources [rKin, rKinOther] [] =
      [RAGService.mkSourceInfo rKin, RAGService.mkSourceInfo rKinOther] :=
  ⟨by decide, by decide,
    (sources_dedup (twoResultCollabs rKin rKinDup) "q" none none [] 5 [1 / 10]
      rKin rKinDup "grounded answer" rfl rfl (fun _ => rfl)).2.1 (by decide),
    (sources_dedup (twoResultCollabs rKin rKinOther) "q" none none [] 5 [1 / 10]
      rKin rKinOther "grounded answer" rfl rfl (fun _ => rfl)).2.2 rfl rfl (by decide)⟩

/-- Claim C7: `upsert_documents` on lists of differing lengths fails with the
`ValueError` message and leaves the index state exactly unchanged — the
length check precedes any write. -/
theorem upsert_mismatch_atomic (st : List VectorService.QPoint) (freshIds : List Nat)
    (documents : List Payload) (embeddings : List (List Rat))
    (h : documents.length ≠ embeddings.length) :
    VectorService.upsert_documents st freshIds documents embeddings =
      (.error (VectorService.mismatchMsg documents.length embeddings.length), st) := by
  unfold VectorService.upsert_documents
  rw [if_pos h]

/-- Witness for C7: one document, zero embeddings. -/
theorem upsert_mismatch_atomic_witness :
    [pKin].length ≠ ([] : List (List Rat)).length ∧
    VectorService.upsert_documents [] [] [pKin] [] =
      (.error (VectorService.mismatchMsg [pKin].length ([] : List (List Rat)).length), []) :=
  ⟨by decide, upsert_mismatch_atomic [] [] [pKin] [] (by decide)⟩

/-- Claim C8 (amended): `delete_by_chapter` scans one scroll page of at most
10000 matching entries and deletes those identifiers; whenever the index
holds at most 10000 entries matching the chapter, a subsequent search
filtered to that chapter_slug returns zero results. -/
theorem delete_by_chapter_clears_chapter (scoreOf : List Rat → List Rat → Rat)
    (st : List VectorService.QPoint) (slug : String) (qv : List Rat) (limit : Nat)
    (h : (st.filter (fun p => p.payload.chapter_slug == slug)).length ≤ 10000) :
    VectorService.search scoreOf (VectorService.delete_by_chapter st slug) qv limit
      (some slug) none = [] := by
  have hfm : ∀ l : List VectorService.QPoint,
      l.filter (fun p => VectorService.matchesFilter (some slug) none p.payload) =
      l.filter (fun p => p.payload.chapter_slug == slug) := by
    intro l
    apply List.filter_congr
    intro p _
    simp [VectorService.matchesFilter]
  unfold VectorService.search
  rw [hfm]
  have h2 : (VectorService.delete_by_chapter st slug).filter
      (fun p => p.payload.chapter_slug == slug) = [] := by
    unfold VectorService.delete_by_chapter VectorService.scrollByChapter
    rw [List.take_of_length_le h]
    by_cases hemp : (st.filter (fun p => p.payload.chapter_slug == slug)) = []
    · rw [hemp]
      simp [hemp]
    · rw [if_neg (by simpa using hemp)]
      rw [List.filter_eq_nil_iff]
      intro p hp hmatch
      rcases List.mem_filter.mp hp with ⟨hpst, hkeep⟩
      have hmem : p ∈ st.filter (fun x => x.payload.chapter_slug == slug) :=
        List.mem_filter.mpr ⟨hpst, hmatch⟩
      have hid : p.id ∈ (st.filter (fun x => x.payload.chapter_slug == slug)).map
          (fun q => q.id) := List.mem_map.mpr ⟨p, hmem, rfl⟩
      have hc : ((st.filter (fun x => x.payload.chapter_slug == slug)).map
          (fun q => q.id)).contains p.id = true := by
        simpa using hid
      rw [hc] at hkeep
      simp at hkeep
  rw [h2]
  simp

/-- Witness for the amended C8: a three-point state, two of them in the
"kinematics" chapter; after deletion a filtered search returns nothing. -/
theorem delete_by_chapter_clears_chapter_witness :
    (smallState.filter (fun p => p.payload.chapter_slug == "kinematics")).length ≤ 10000 ∧
    VectorService.search (fun _ _ => 0) (VectorService.delete_by_chapter smallState "kinematics")
      [] 5 (some "kinematics") none = [] :=
  ⟨by decide,
    delete_by_chapter_clears_chapter (fun _ _ => 0) smallState "kinematics" [] 5 (by decide)⟩

/-- Counterexample to C8 as stated: with 10001 matching entries — more than
the single scroll page of 10000 that `delete_by_chapter` reads — one entry
survives deletion, and the subsequent search filtered to the chapter is
non-empty, refuting "for every index state, including states with
arbitrarily many matching entries". -/
theorem delete_by_chapter_misses_beyond_scroll_limit :
    VectorService.search (fun _ _ => 0) (VectorService.delete_by_chapter bigState "kinematics")
      [] 5 (some "kinematics") none ≠ [] := by
  have hfilter : bigState.filter (fun p => p.payload.chapter_slug == "kinematics") = bigState := by
    apply List.filter_eq_self.mpr
    intro a ha
    rcases List.mem_map.mp ha with ⟨n, _, rfl⟩
    rfl
  have hfound : (bigState.filter (fun p => p.payload.chapter_slug == "kinematics")).take 10000 =
      (List.range 10000).map mkPt := by
    rw [hfilter]
    unfold bigState
    rw [← List.map_take, List.take_range]
    norm_num
  have hids : ((List.range 10000).map mkPt).map (fun q => q.id) = List.range 10000 := by
    rw [List.map_map]
    have : ((fun q : VectorService.QPoint => q.id) ∘ mkPt) = fun n => n := by
      funext n
      rfl
    rw [this]
    simp
  have hsurvivor : mkPt 10000 ∈ VectorService.delete_by_chapter bigState "kinematics" := by
    unfold VectorService.delete_by_chapter VectorService.scrollByChapter
    rw [hfound]
    rw [if_neg (by simp [List.range_eq_nil])]
    apply List.mem_filter.mpr
    constructor
    · exact List.mem_map.mpr ⟨10000, List.mem_range.mpr (by norm_num), rfl⟩
    · rw [hids]
      simp [mkPt, List.mem_range]
  have hne : (VectorService.delete_by_chapter bigState "kinematics").filter
      (fun p => VectorService.matchesFilter (some "kinematics") none p.payload) ≠ [] := by
    apply List.ne_nil_of_mem (a := mkPt 10000)
    apply List.mem_filter.mpr
    exact ⟨hsurvivor, by decide⟩
  unfold VectorService.search
  intro hcontra
  rcases List.map_eq_nil_iff.mp hcontra with h0
  rcases (List.take_eq_nil_iff).mp h0 with h5 | hnil
  · exact absurd h5 (by norm_num)
  · exact hne hnil

/-- Counterexample to C9 as stated: a dimension mismatch does not fail fast
at collection-creation time. With the collection already present at
dimension 768 ≠ 1024, the creation call for 1024 returns successfully and
leaves the 768 collection untouched (a silent no-op). -/
theorem create_collection_silent_on_mismatch :
    VectorService.create_collection [(VectorService.collection_name, 768)] 1024 false =
      .ok [(VectorService.collection_name, 768)] ∧ (768 : Nat) ≠ 1024 := by
  constructor
  · rfl
  · decide

/-- Claim C9 (amended): the mock embedding and the fallback embedding on a
failed remote call both have length 1024, and startup creates the collection
with dimension 1024, so the two contract constants agree in this deployment;
fail-fast on an existing mismatched collection does not hold (see the
counterexample). -/
theorem dimension_contract_agreement (t : String) (cl : CohereService.ChatClient) (e : String)
    (hcl : cl.embedApi t = .error e) :
    (CohereService.generate_embedding none t).length = 1024 ∧
    (CohereService.generate_embedding (some cl) t).length = 1024 ∧
    startupVectorSize = 1024 ∧
    startupCreateCollection [] = .ok [(VectorService.collection_name, 1024)] := by
  have hm : CohereService.mockEmbedding.length = 1024 := by
    unfold CohereService.mockEmbedding
    rw [List.length_replicate]
  refine ⟨hm, ?_, rfl, rfl⟩
  unfold CohereService.generate_embedding
  dsimp only
  rw [hcl]
  exact hm

/-- Witness for the amended C9: a client whose embedding call fails. -/
theorem dimension_contract_agreement_witness :
    failingClient.embedApi "hi" = .error "cohere down" ∧
    ((CohereService.generate_embedding none "hi").length = 1024 ∧
    (CohereService.generate_embedding (some failingClient) "hi").length = 1024 ∧
    startupVectorSize = 1024 ∧
    startupCreateCollection [] = .ok [(VectorService.collection_name, 1024)]) :=
  ⟨rfl, dimension_contract_agreement "hi" failingClient "cohere down" rfl⟩

/-- Claim C10: only the top-level catch-all branch produces a result whose
`error` field is present (holding the exception text); the terminal
embedding-failure, no-context, and normal branches all leave it absent; and
the catch-all answer is the fixed apologetic text, never the raw
exception. -/
theorem error_key_only_on_catch_all (c : RAGService.Collabs) (q : String)
    (sel ch : Option String) (hist : List (String × String)) (k : Nat) (v : List Rat)
    (res : List SearchResult) (e a : String)
    (he : c.embed q = .ok v) (hs : c.search v k ch = .ok res) (hne : res ≠ []) :
    (c.generate q (if RAGService.isGeneralQuestion q then []
        else res.map (fun r => r.payload.content)) hist sel = .error e →
      ∃ calls, RAGService.answer_question c q sel ch hist k =
        .ok (RAGService.catchAllResult e, calls)) ∧
    RAGService.catchAllResult e =
      { answer := RAGService.pipelineErrorAnswer, sources := [], context_chunks := [],
        error := some e } ∧
    RAGService.embedFailResult.error = none ∧
    RAGService.noContextResult.error = none ∧
    (c.generate q (if RAGService.isGeneralQuestion q then []
        else res.map (fun r => r.payload.content)) hist sel = .ok a →
      ∃ r calls, RAGService.answer_question c q sel ch hist k = .ok (r, calls) ∧
        r.error = none ∧ r.answer = a) := by
  refine ⟨?_, rfl, rfl, rfl, ?_⟩
  · intro hg
    unfold RAGService.answer_question
    rw [he]
    simp only [hs, RAGService.searchOutcome]
    rw [if_neg (by simpa using hne)]
    rw [hg]
    exact ⟨_, rfl⟩
  · intro hg
    unfold RAGService.answer_question
    rw [he]
    simp only [hs, RAGService.searchOutcome]
    rw [if_neg (by simpa using hne)]
    rw [hg]
    exact ⟨_, _, rfl, rfl, rfl⟩

/-- Witness for C10: a technical question whose generation call throws takes
the catch-all branch, whose result carries the error key and the fixed
apologetic answer. -/
theorem error_key_only_on_catch_all_witness :
    [rKin, rCtrl] ≠ ([] : List SearchResult) ∧
    ∃ calls, RAGService.answer_question genFailCollabs "What is a PID controller?" none none [] 5 =
      .ok (RAGService.catchAllResult "cohere chat down", calls) :=
  ⟨by decide,
    (error_key_only_on_catch_all genFailCollabs "What is a PID controller?" none none [] 5
      [1 / 10] [rKin, rCtrl] "cohere chat down" "unused" rfl rfl (by decide)).1 rfl⟩
